import Mathlib

/-!
Verification of the retrieval pipeline of the llm-document-assistant
repository: content-addressed index caching (`src/vectorstore/vectordb.py`),
document loading (`src/document/document_loader.py`), chunking
(`src/document/text_splitter.py`) and the instrumented query orchestrator
(`src/retriever/QA_chain.py`).

Modelling conventions:
* A Python `str` is modelled as `List Char` (a sequence of code points);
  `str.strip()` is `pyStrip`, `s[:n]` is `List.take n`, `len` is
  `List.length`.
* A Python function that may raise is modelled as returning `Except PyExc α`;
  `PyExc` enumerates the `Exception` subclasses raised or caught by this
  code base (`ValueError`, `FileNotFoundError`, `ConnectionError`,
  `RuntimeError`, and a catch-all for other `Exception` subclasses such as
  `KeyError` or library errors).
* The SHA-256 digest of `_compute_chunks_hash` is modelled by its preimage:
  the concatenation of the UTF-8 text of each chunk's first 200 characters.
  Since UTF-8 encoding is injective and concatenation distributes over it,
  digest equality corresponds to equality of this concatenation, up to
  SHA-256 collisions, which are assumed not to occur.
* External library calls (PDF parsing, the recursive splitter, embedding
  model load, Chroma construction, the RetrievalQA chain) are oracle
  parameters: arbitrary functions/values supplied to the embedded code, so
  theorems quantify over every possible behaviour of those collaborators.
* Wall-clock readings (`time.perf_counter`) are not representable in a pure
  embedding; every recorded duration is modelled as the constant 0. The
  claims under verification do not inspect duration values, only the
  structure of the returned metrics.
-/

/-- Python's `str.strip()` on the left end only: drop leading whitespace. -/
def trimLeft (s : List Char) : List Char := s.dropWhile Char.isWhitespace

/-- Python's `str.strip()`: drop leading and trailing whitespace. -/
def pyStrip (s : List Char) : List Char :=
  ((trimLeft s).reverse.dropWhile Char.isWhitespace).reverse

/-- The query value passed by Gradio: a `str`, `None`, or (per the comment
in `retriever_qa_with_metadata`: "Gradio 5.x may pass a list") a list of
strings. -/
inductive PyVal : Type
  | pstr (s : List Char)
  | pnone
  | plistStr (xs : List (List Char))
deriving DecidableEq, Repr

/-- The single-quote character, as used by Python `repr` of a string. -/
def squote : Char := Char.ofNat 39

/-- Python `repr` of a string (no escaping needed for the inputs used
here). -/
def pyReprStr (s : List Char) : List Char := squote :: (s ++ [squote])

/-- Python `str()` coercion as applied by `retriever_qa_with_metadata`
(`if not isinstance(query, str): query = str(query)`). -/
def pyStr : PyVal → List Char
  | .pstr s => s
  | .pnone => "None".data
  | .plistStr xs => '[' :: ((List.intercalate ", ".data (xs.map pyReprStr)) ++ [']'])

/-- A LangChain `Document`: its `page_content` and its `metadata.get("page")`
value (`none` models an absent "page" key, rendered as `"?"` by the
orchestrator). -/
structure Doc where
  page_content : List Char
  page : Option Int
deriving DecidableEq, Repr

instance : Inhabited Doc := ⟨⟨[], none⟩⟩

/-- The Python exceptions raised or caught in this code base. All are
subclasses of `Exception` (never `BaseException`), so the orchestrator's
final `except Exception` clause catches every one of them. -/
inductive PyExc : Type
  | valueError (msg : List Char)
  | fileNotFoundError (msg : List Char)
  | connectionError (msg : List Char)
  | runtimeError (msg : List Char)
  | otherError (msg : List Char)
deriving DecidableEq, Repr

/-- Python `str(exc)`: the exception's message. -/
def excMessage : PyExc → List Char
  | .valueError m => m
  | .fileNotFoundError m => m
  | .connectionError m => m
  | .runtimeError m => m
  | .otherError m => m

-- ---------------------------------------------------------------------------
-- src/vectorstore/vectordb.py
-- ---------------------------------------------------------------------------

/-- `_compute_chunks_hash` (vectordb.py lines 25-36): the SHA-256 digest over
the first 200 characters of each chunk's `page_content`, in chunk order.
Modelled by the digest's preimage, the concatenated prefix stream (see the
header comment on the SHA-256 abstraction). -/
def chunksHash (chunks : List Doc) : List Char :=
  (chunks.map (fun c => c.page_content.take 200)).flatten

/-- The process-wide `_vectordb_cache` dict plus an instrumentation view of
the Chroma stores it holds: each successfully built store is identified by
a fresh natural number (`nextId`), so "same instance" is equality of ids,
and `buildCount` counts how many times `Chroma.from_documents` ran. -/
structure VdbState where
  cache : List (List Char × Nat)
  nextId : Nat
  buildCount : Nat
deriving DecidableEq, Repr

/-- Lookup in the cache dict; insertion prepends, so the first match is the
most recent assignment, matching Python dict overwrite semantics. -/
def lookupFp (fp : List Char) (cache : List (List Char × Nat)) : Option Nat :=
  (cache.find? (fun p => p.1 = fp)).map (fun p => p.2)

def emptyChunksMsg : List Char :=
  "Cannot create a vector store from an empty chunk list.".data

/-- `vector_database` (vectordb.py lines 39-82). `getEmb` is the outcome of
`get_embedding_model()` and `fromDocs` the outcome of
`Chroma.from_documents` (oracle parameters for the two external calls that
may raise); the returned pair is (result-or-exception, cache state after
the call). The sequence is exactly the source's: empty-check, hash, cache
probe, embedding-model acquisition, store construction, cache insertion. -/
def vector_database (getEmb fromDocs : Except PyExc Unit) (st : VdbState)
    (chunks : List Doc) : (Except PyExc Nat) × VdbState :=
  if chunks = [] then (.error (.valueError emptyChunksMsg), st)
  else
    match lookupFp (chunksHash chunks) st.cache with
    | some id => (.ok id, st)
    | none =>
      match getEmb with
      | .error e => (.error e, st)
      | .ok _ =>
        match fromDocs with
        | .error e => (.error e, st)
        | .ok _ =>
          (.ok st.nextId,
           ⟨(chunksHash chunks, st.nextId) :: st.cache, st.nextId + 1,
            st.buildCount + 1⟩)

/-- The empty `_vectordb_cache` at process start. -/
def vdbInit : VdbState := ⟨[], 0, 0⟩

/-- A `vector_database` call whose external collaborators succeed. -/
def vdbCall (st : VdbState) (chunks : List Doc) : (Except PyExc Nat) × VdbState :=
  vector_database (.ok ()) (.ok ()) st chunks

-- ---------------------------------------------------------------------------
-- Interleaving model of concurrent vector_database callers
-- ---------------------------------------------------------------------------

/-- Program counter of one thread running `vector_database` on a chunk list
with a given fingerprint. The function body decomposes into three atomic
regions separated by the two blocking external calls: the cache membership
probe (lines 61-63), the expensive build (`get_embedding_model` plus
`Chroma.from_documents`, lines 72-78), and the cache insertion (line 80).
Python's GIL makes the dict probe and the dict assignment individually
atomic, but nothing serialises the stretch between them. -/
inductive CallerPC : Type
  | start
  | toBuild
  | toInsert (id : Nat)
  | done (id : Nat)
deriving DecidableEq, Repr

/-- Shared state plus the program counter of every caller. All callers in
this model share one fingerprint (the racing scenario of the claim);
`cache`, `nextId`, `buildCount` are as in `VdbState`. -/
structure ConcState where
  cache : List (List Char × Nat)
  nextId : Nat
  buildCount : Nat
  callers : Nat → CallerPC

/-- One atomic step of caller `i`. -/
def concStep (fp : List Char) (s : ConcState) (i : Nat) : ConcState :=
  match s.callers i with
  | .start =>
    match lookupFp fp s.cache with
    | some id => { s with callers := fun j => if j = i then .done id else s.callers j }
    | none => { s with callers := fun j => if j = i then .toBuild else s.callers j }
  | .toBuild =>
    { cache := s.cache, nextId := s.nextId + 1, buildCount := s.buildCount + 1,
      callers := fun j => if j = i then .toInsert s.nextId else s.callers j }
  | .toInsert id =>
    { cache := (fp, id) :: s.cache, nextId := s.nextId, buildCount := s.buildCount,
      callers := fun j => if j = i then .done id else s.callers j }
  | .done _ => s

/-- Run a schedule: a list of caller indices, each entry advancing that
caller by one atomic step. -/
def concRun (fp : List Char) (sched : List Nat) (s : ConcState) : ConcState :=
  sched.foldl (concStep fp) s

/-- Fresh process state: empty cache, every caller about to probe it. -/
def concInit : ConcState := ⟨[], 0, 0, fun _ => .start⟩

/-- The fully sequential schedule: caller 0 runs its (at most three) steps
to completion, then caller 1, and so on. A step scheduled for a finished
caller is a no-op. -/
def seqSchedule : Nat → List Nat
  | 0 => []
  | n + 1 => seqSchedule n ++ [n, n, n]

-- ---------------------------------------------------------------------------
-- src/document/text_splitter.py
-- ---------------------------------------------------------------------------

def splitterNoDocsMsg : List Char :=
  ("No documents provided to the text splitter. " ++
   "The PDF may not have contained any extractable text.").data

def splitterNoChunksMsg : List Char :=
  ("Text splitting produced no usable chunks. " ++
   "The document may contain only images or blank pages.").data

/-- `text_splitter` (text_splitter.py lines 7-46). `splitFn` is the oracle
for `RecursiveCharacterTextSplitter(chunk_size, chunk_overlap).split_documents`
(external library, already configured with its tunables): the embedded code
is the empty-input guard, the empty-chunk filter, and the no-usable-chunks
guard. Both raises in the source are `ValueError`; the spec's names for
them are InputError (first message) and EmptyContentError (second). -/
def text_splitter (splitFn : List Doc → List Doc) (data : List Doc) :
    Except PyExc (List Doc) :=
  if data = [] then .error (.valueError splitterNoDocsMsg)
  else if (splitFn data).filter (fun c => pyStrip c.page_content ≠ []) = [] then
    .error (.valueError splitterNoChunksMsg)
  else .ok ((splitFn data).filter (fun c => pyStrip c.page_content ≠ []))

-- ---------------------------------------------------------------------------
-- src/document/document_loader.py
-- ---------------------------------------------------------------------------

/-- The facts about the referenced file that `document_loader` consults,
with the outcome of the external `PyPDFLoader(...).load()` call as an
oracle. Path resolution (Gradio handle with `.name` versus plain string)
always yields one resolved path, so it is collapsed into these attributes;
the path text interpolated into error messages is elided. -/
structure FileModel where
  pathExists : Bool
  suffix : List Char
  size : Nat
  parseResult : Except PyExc (List Doc)

def noFileMsg : List Char :=
  "No file provided. Please upload a PDF document.".data

def fileNotFoundMsg : List Char := "PDF file not found at: ".data

def wrongSuffixMsg : List Char :=
  "Expected a .pdf file but received a different extension. Please upload a valid PDF document.".data

def emptyPdfMsg : List Char := "The uploaded PDF file is empty (0 bytes).".data

def parseFailHead : List Char := "Failed to parse the PDF file: ".data

def noPagesMsg : List Char :=
  ("The PDF was loaded but produced no pages. " ++
   "It may be scanned/image-only or corrupted.").data

def pdfSuffix : List Char := ".pdf".data

/-- `document_loader` (document_loader.py lines 8-70): missing-reference,
existence, extension and size validation, then the wrapped parser call and
the zero-pages check. Note the zero-pages case raises `RuntimeError`, like
the parser-failure case, not `ValueError`. -/
def document_loader (input_file : Option FileModel) : Except PyExc (List Doc) :=
  match input_file with
  | none => .error (.valueError noFileMsg)
  | some f =>
    if f.pathExists = false then .error (.fileNotFoundError fileNotFoundMsg)
    else if ¬ (f.suffix.map Char.toLower = pdfSuffix) then
      .error (.valueError wrongSuffixMsg)
    else if f.size = 0 then .error (.valueError emptyPdfMsg)
    else
      match f.parseResult with
      | .error e => .error (.runtimeError (parseFailHead ++ excMessage e))
      | .ok pages => if pages = [] then .error (.runtimeError noPagesMsg) else .ok pages

-- ---------------------------------------------------------------------------
-- src/retriever/QA_chain.py : source extraction
-- ---------------------------------------------------------------------------

/-- One entry of the source attribution list: the page metadata value
(`none` models the `"?"` default) and the excerpt. -/
structure Source where
  page : Option Int
  excerpt : List Char
deriving DecidableEq, Repr

/-- The source-extraction loop of `retriever_qa_with_metadata` (QA_chain.py
lines 173-182): iterate over the retrieved documents with a `seen_pages`
set, skipping a document whose page was already seen, otherwise appending
`{page, excerpt}` where the excerpt is `doc.page_content[:200].strip()`. -/
def extract_loop (seen : List (Option Int)) : List Doc → List Source
  | [] => []
  | d :: ds =>
    if d.page ∈ seen then extract_loop seen ds
    else ⟨d.page, pyStrip (d.page_content.take 200)⟩ :: extract_loop (d.page :: seen) ds

/-- The extraction loop started with an empty `seen_pages` set. -/
def extract_sources (docs : List Doc) : List Source := extract_loop [] docs

/-- The spec's description of source attribution, stated directly from its
words: "deduplicate retrieved chunks by page number, preserving first-seen
order; for each kept chunk produce an excerpt truncated to a bounded
character count (200) with surrounding whitespace trimmed". Used as the
reference definition that `extract_sources` is proved to refine. -/
def spec_source_attributions : List Doc → List Source
  | [] => []
  | d :: ds =>
    ⟨d.page, pyStrip (d.page_content.take 200)⟩ ::
      spec_source_attributions (ds.filter (fun e => e.page ≠ d.page))
termination_by l => l.length
decreasing_by
  simp only [List.length_cons]
  exact Nat.lt_succ_of_le (List.length_filter_le _ _)

-- ---------------------------------------------------------------------------
-- src/retriever/QA_chain.py : retriever_qa_with_metadata
-- ---------------------------------------------------------------------------

/-- The keys of the `metrics` dict, in the order the orchestrator inserts
them. -/
inductive MetricKey : Type
  | load_time
  | num_pages
  | chunk_time
  | num_chunks
  | embed_time
  | generation_time
  | total_latency
  | num_sources
deriving DecidableEq, Repr

/-- The `metrics` dict: insertion-ordered key/value pairs. Duration values
are the constant 0 (see the header comment); counts are the real counts. -/
abbrev Metrics : Type := List (MetricKey × Nat)

/-- The value of `qa.invoke({"query": query})`: the `"result"` entry
(`none` models an absent key, whose subscript access raises `KeyError`) and
the `"source_documents"` list (`response.get` defaults it to `[]`, folded
into the field). -/
structure QAResponse where
  result : Option (List Char)
  source_documents : List Doc

/-- The external collaborators of one `retriever_qa_with_metadata` call,
plus the process-wide cache state it sees: oracle outcomes for the
splitter library, `get_embedding_model`, `Chroma.from_documents`,
`get_llm`, and the RetrievalQA chain (`as_retriever`, chain construction
and `invoke`, lumped into `qaInvoke` on the stripped query). -/
structure Env where
  splitFn : List Doc → List Doc
  getEmbedding : Except PyExc Unit
  fromDocuments : Except PyExc Unit
  vdbState : VdbState
  getLlm : Except PyExc Unit
  qaInvoke : List Char → Except PyExc QAResponse

def resultKeyMsg : List Char := "result".data

/-- The instrumented pipeline inside the `try` block (QA_chain.py lines
129-184): load, chunk, embed/index, generate, extract sources. An error
escapes with the metrics recorded so far (the Python `metrics` dict the
handlers close over). -/
def run_pipeline (env : Env) (f : FileModel) (query : List Char) :
    Except (PyExc × Metrics) (List Char × List Source × Metrics) :=
  match document_loader (some f) with
  | .error e => .error (e, [])
  | .ok splits =>
    let m1 : Metrics := [(.load_time, 0), (.num_pages, splits.length)]
    match text_splitter env.splitFn splits with
    | .error e => .error (e, m1)
    | .ok chunks =>
      let m2 : Metrics := m1 ++ [(.chunk_time, 0), (.num_chunks, chunks.length)]
      match vector_database env.getEmbedding env.fromDocuments env.vdbState chunks with
      | (.error e, _) => .error (e, m2)
      | (.ok _, _) =>
        let m3 : Metrics := m2 ++ [(.embed_time, 0)]
        match env.getLlm with
        | .error e => .error (e, m3)
        | .ok _ =>
          match env.qaInvoke query with
          | .error e => .error (e, m3)
          | .ok resp =>
            let m4 : Metrics := m3 ++ [(.generation_time, 0), (.total_latency, 0),
                                       (.num_sources, resp.source_documents.length)]
            match resp.result with
            | none => .error (.otherError resultKeyMsg, m4)
            | some ans => .ok (ans, extract_sources resp.source_documents, m4)

def inputErrorHead : List Char := "Input error: ".data

def ollamaMsg : List Char :=
  ("Could not connect to the Ollama server. " ++
   "Please ensure Ollama is running.").data

def unexpectedHead : List Char := "An unexpected error occurred: ".data

/-- The `except` chain of `retriever_qa_with_metadata` (QA_chain.py lines
186-201): `(ValueError, FileNotFoundError)` to the input-error message,
`ConnectionError` to the fixed Ollama message, any other `Exception` to the
generic unexpected-error message. -/
def classify_exc : PyExc → List Char
  | .valueError m => inputErrorHead ++ m
  | .fileNotFoundError m => inputErrorHead ++ m
  | .connectionError _ => ollamaMsg
  | .runtimeError m => unexpectedHead ++ m
  | .otherError m => unexpectedHead ++ m

/-- The `try`/`except` wrapper: a pipeline exception becomes a returned
triple with the handler's message, the empty source list, and the metrics
recorded so far. -/
def handle_pipeline (env : Env) (f : FileModel) (query : List Char) :
    Except PyExc (List Char × List Source × Metrics) :=
  match run_pipeline env f query with
  | .ok t => .ok t
  | .error (e, m) => .ok (classify_exc e, [], m)

def uploadMsg : List Char :=
  "Please upload a PDF document before asking a question.".data

def emptyQuestionMsg : List Char :=
  "Please enter a question about the document.".data

def tooLongMsg : List Char :=
  "Your question is too long (max 2,000 characters).".data

/-- `retriever_qa_with_metadata` (QA_chain.py lines 98-201): coerce the
query to `str`, validate (file present; question non-blank; stripped
question at most 2000 characters), then run the wrapped pipeline on the
stripped question. The result type is `Except PyExc` so that an uncaught
exception would be representable; the theorems show none escapes. -/
def retriever_qa_with_metadata (env : Env) (file : Option FileModel)
    (query : PyVal) : Except PyExc (List Char × List Source × Metrics) :=
  match file with
  | none => .ok (uploadMsg, [], [])
  | some f =>
    if pyStr query = [] ∨ pyStrip (pyStr query) = [] then
      .ok (emptyQuestionMsg, [], [])
    else if 2000 < (pyStrip (pyStr query)).length then
      .ok (tooLongMsg, [], [])
    else handle_pipeline env f (pyStrip (pyStr query))

-- ---------------------------------------------------------------------------
-- Concrete fixtures used by witnesses and counterexamples
-- ---------------------------------------------------------------------------

/-- A well-formed one-page PDF file reference whose parse succeeds. -/
def fOk : FileModel :=
  ⟨true, ".pdf".data, 3, .ok [⟨"Hello world".data, some 0⟩]⟩

/-- A well-formed PDF file reference whose parse yields zero pages. -/
def fEmpty : FileModel := ⟨true, ".pdf".data, 3, .ok []⟩

/-- A benign environment: every collaborator succeeds, the splitter is the
identity, the chain answers "ans" citing no sources, the cache is fresh. -/
def envOk : Env :=
  ⟨fun ds => ds, .ok (), .ok (), vdbInit, .ok (),
   fun _ => .ok ⟨some "ans".data, []⟩⟩

/-- The metrics of a fully successful pipeline run with the given page,
chunk and source counts (durations are the modelled 0). -/
def fullMetrics (pages chunks srcs : Nat) : Metrics :=
  [(.load_time, 0), (.num_pages, pages), (.chunk_time, 0), (.num_chunks, chunks),
   (.embed_time, 0), (.generation_time, 0), (.total_latency, 0),
   (.num_sources, srcs)]

-- ---------------------------------------------------------------------------
-- Helper lemmas
-- ---------------------------------------------------------------------------

theorem pyStrip_nil : pyStrip [] = [] := rfl

theorem pyStrip_length_le (s : List Char) : (pyStrip s).length ≤ s.length := by
  unfold pyStrip trimLeft
  calc ((s.dropWhile Char.isWhitespace).reverse.dropWhile Char.isWhitespace).reverse.length
      = ((s.dropWhile Char.isWhitespace).reverse.dropWhile Char.isWhitespace).length :=
        List.length_reverse _
    _ ≤ (s.dropWhile Char.isWhitespace).reverse.length :=
        (List.dropWhile_sublist _).length_le
    _ = (s.dropWhile Char.isWhitespace).length := List.length_reverse _
    _ ≤ s.length := (List.dropWhile_sublist _).length_le

theorem ne_nil_of_pyStrip_ne_nil {s : List Char} (h : pyStrip s ≠ []) : s ≠ [] := by
  intro hs
  exact h (by rw [hs]; rfl)

-- ---------------------------------------------------------------------------
-- Claim C5
-- ---------------------------------------------------------------------------

/-- Claim C5: the ContentFingerprint is a deterministic function of the
ordered sequence of each chunk's 200-character text prefix — two chunk
sequences of equal length whose chunks agree pairwise on their first 200
characters of `page_content` produce the same fingerprint. (Repetition on a
fixed sequence trivially yields the same digest since `chunksHash` is a
pure function.) -/
theorem c5_fingerprint_prefix_invariant (c1 c2 : List Doc)
    (hlen : c1.length = c2.length)
    (hpre : ∀ i, i < c1.length →
      (c1.getD i default).page_content.take 200
        = (c2.getD i default).page_content.take 200) :
    chunksHash c1 = chunksHash c2 := by
  induction c1 generalizing c2 with
  | nil =>
    cases c2 with
    | nil => rfl
    | cons e es => simp at hlen
  | cons d ds ih =>
    cases c2 with
    | nil => simp at hlen
    | cons e es =>
      have h0 : d.page_content.take 200 = e.page_content.take 200 := by
        have := hpre 0 (by simp)
        simpa using this
      have hrest : chunksHash ds = chunksHash es := by
        apply ih
        · simpa using hlen
        · intro i hi
          have := hpre (i + 1) (by simpa using Nat.succ_lt_succ hi)
          simpa using this
      simp only [chunksHash, List.map_cons, List.flatten_cons] at *
      rw [h0, hrest]

/-- Witness for C5 at a concrete pair: same text, different page metadata. -/
theorem c5_witness :
    chunksHash [⟨"abc".data, none⟩] = chunksHash [⟨"abc".data, some 1⟩] :=
  c5_fingerprint_prefix_invariant _ _ (by decide) (by decide)

-- ---------------------------------------------------------------------------
-- Claim C8
-- ---------------------------------------------------------------------------

/-- Claim C8: `text_splitter` raises on an empty input sequence (the spec's
InputError, realised as `ValueError` with the no-documents message) and on
a filter result with zero usable chunks (the spec's EmptyContentError,
realised as `ValueError` with the no-usable-chunks message); every chunk of
a successful result is non-empty after trimming, and a successful result is
never the empty list. -/
theorem c8_splitter_contract (splitFn : List Doc → List Doc) (data : List Doc) :
    (data = [] → text_splitter splitFn data = .error (.valueError splitterNoDocsMsg)) ∧
    (data ≠ [] →
      (splitFn data).filter (fun c => pyStrip c.page_content ≠ []) = [] →
      text_splitter splitFn data = .error (.valueError splitterNoChunksMsg)) ∧
    (∀ cs, text_splitter splitFn data = .ok cs →
      cs ≠ [] ∧ ∀ c ∈ cs, pyStrip c.page_content ≠ []) := by
  refine ⟨?_, ?_, ?_⟩
  · intro h
    unfold text_splitter
    rw [if_pos h]
  · intro h1 h2
    unfold text_splitter
    rw [if_neg h1, if_pos h2]
  · intro cs h
    unfold text_splitter at h
    by_cases h1 : data = []
    · rw [if_pos h1] at h; exact absurd h (by simp)
    · rw [if_neg h1] at h
      by_cases h2 : (splitFn data).filter (fun c => pyStrip c.page_content ≠ []) = []
      · rw [if_pos h2] at h; exact absurd h (by simp)
      · rw [if_neg h2] at h
        have hcs : (splitFn data).filter (fun c => pyStrip c.page_content ≠ []) = cs :=
          Except.ok.inj h
        rw [← hcs]
        refine ⟨h2, fun c hc => ?_⟩
        have := List.mem_filter.mp hc
        simpa using this.2

/-- Witness for C8: a successful split on one non-blank page. -/
theorem c8_witness :
    ([⟨"hi".data, none⟩] : List Doc) ≠ [] ∧
    ∀ c ∈ ([⟨"hi".data, none⟩] : List Doc), pyStrip c.page_content ≠ [] :=
  (c8_splitter_contract (fun ds => ds) [⟨"hi".data, none⟩]).2.2 [⟨"hi".data, none⟩] rfl

-- ---------------------------------------------------------------------------
-- Claim C9
-- ---------------------------------------------------------------------------

/-- Claim C9: cache insertion in `vector_database` is atomic with respect to
build failure — on a cache miss, if `get_embedding_model` raises or
`Chroma.from_documents` raises, the whole state (in particular the cache
mapping) is unchanged; an entry is inserted exactly when the build
succeeds, and then it is the new head of the cache. -/
theorem c9_insert_only_after_build (st : VdbState) (chunks : List Doc)
    (e : PyExc) (b : Except PyExc Unit) (hne : chunks ≠ [])
    (hmiss : lookupFp (chunksHash chunks) st.cache = none) :
    vector_database (.error e) b st chunks = (.error e, st) ∧
    vector_database (.ok ()) (.error e) st chunks = (.error e, st) ∧
    (vector_database (.ok ()) (.ok ()) st chunks).2.cache
      = (chunksHash chunks, st.nextId) :: st.cache := by
  refine ⟨?_, ?_, ?_⟩ <;> simp [vector_database, hne, hmiss]

/-- Witness for C9 at a concrete state, chunk list and failing build. -/
theorem c9_witness :
    vector_database (.error (.otherError "boom".data)) (.ok ()) vdbInit
        [⟨"x".data, none⟩] = (.error (.otherError "boom".data), vdbInit) ∧
    vector_database (.ok ()) (.error (.otherError "boom".data)) vdbInit
        [⟨"x".data, none⟩] = (.error (.otherError "boom".data), vdbInit) ∧
    (vector_database (.ok ()) (.ok ()) vdbInit [⟨"x".data, none⟩]).2.cache
      = (chunksHash [⟨"x".data, none⟩], vdbInit.nextId) :: vdbInit.cache :=
  c9_insert_only_after_build vdbInit [⟨"x".data, none⟩]
    (.otherError "boom".data) (.ok ()) (by decide) rfl

-- ---------------------------------------------------------------------------
-- Claim C1
-- ---------------------------------------------------------------------------

/-- Single-entry cache probe, resolved by the key comparison. -/
theorem lookupFp_single (fp fp1 : List Char) (id : Nat) :
    lookupFp fp [(fp1, id)] = if fp1 = fp then some id else none := by
  by_cases h : fp1 = fp <;> simp [lookupFp, List.find?, h]

/-- A chunk whose text is 200 times 'a' followed by 'b'. -/
def cexDocA : Doc := ⟨List.replicate 200 'a' ++ ['b'], none⟩

/-- A chunk whose text is 200 times 'a' followed by 'c': different content
from `cexDocA`, but identical in the first 200 characters. -/
def cexDocB : Doc := ⟨List.replicate 200 'a' ++ ['c'], none⟩

set_option maxRecDepth 8000 in
/-- Claim C1 counterexample: the two chunk lists `[cexDocA]` and `[cexDocB]`
have different chunk content, yet the second `vector_database` call returns
the cached index of the first (same id, no state change) because the
fingerprint only covers each chunk's first 200 characters — refuting
"different chunk content returns distinct indices". -/
theorem c1_counterexample :
    cexDocA.page_content ≠ cexDocB.page_content ∧
    (vdbCall vdbInit [cexDocA]).1 = .ok 0 ∧
    (vdbCall (vdbCall vdbInit [cexDocA]).2 [cexDocB]).1 = .ok 0 ∧
    (vdbCall (vdbCall vdbInit [cexDocA]).2 [cexDocB]).2
      = (vdbCall vdbInit [cexDocA]).2 :=
  ⟨by decide, rfl, rfl, rfl⟩

/-- Claim C1 (amended): from a fresh cache, the first `vector_database` call
builds index 0; a second call returns the same index with no rebuild
exactly when the two chunk lists have equal fingerprints (in particular for
textually identical lists), and builds a distinct index (id 1, second
build) exactly when the fingerprints differ — so distinctness of the
returned indices follows the 200-character-prefix fingerprint, not full
chunk content. -/
theorem c1_cache_correctness (c1 c2 : List Doc) (h1 : c1 ≠ []) (h2 : c2 ≠ []) :
    (vdbCall vdbInit c1).1 = .ok 0 ∧
    (vdbCall vdbInit c1).2.buildCount = 1 ∧
    (chunksHash c1 = chunksHash c2 →
      vdbCall (vdbCall vdbInit c1).2 c2 = (.ok 0, (vdbCall vdbInit c1).2)) ∧
    (chunksHash c1 ≠ chunksHash c2 →
      (vdbCall (vdbCall vdbInit c1).2 c2).1 = .ok 1 ∧
      (vdbCall (vdbCall vdbInit c1).2 c2).2.buildCount = 2) := by
  have hfirst : vdbCall vdbInit c1 = (.ok 0, ⟨[(chunksHash c1, 0)], 1, 1⟩) := by
    unfold vdbCall vector_database
    rw [if_neg h1]
    rfl
  refine ⟨by rw [hfirst], by rw [hfirst], ?_, ?_⟩
  · intro heq
    rw [hfirst]
    unfold vdbCall vector_database
    rw [if_neg h2, lookupFp_single, if_pos heq]
  · intro hne
    rw [hfirst]
    unfold vdbCall vector_database
    rw [if_neg h2, lookupFp_single, if_neg hne]
    exact ⟨rfl, rfl⟩

/-- Witness for C1 at two concrete chunk lists with distinct fingerprints. -/
theorem c1_witness :
    (vdbCall vdbInit [⟨"p".data, none⟩]).1 = .ok 0 ∧
    (vdbCall (vdbCall vdbInit [⟨"p".data, none⟩]).2 [⟨"q".data, none⟩]).1 = .ok 1 := by
  obtain ⟨w1, _, _, w4⟩ :=
    c1_cache_correctness [⟨"p".data, none⟩] [⟨"q".data, none⟩] (by decide) (by decide)
  exact ⟨w1, (w4 (by decide)).1⟩

-- ---------------------------------------------------------------------------
-- Claim C6
-- ---------------------------------------------------------------------------

/-- Claim C6: `retriever_qa_with_metadata` is total over every input and
every behaviour of its collaborators — it always returns an
(answer, sources, metrics) triple and never lets an exception escape:
validation failures return early, and every pipeline exception is caught by
the `except` chain and converted to a message triple. -/
theorem c6_never_raises (env : Env) (file : Option FileModel) (query : PyVal) :
    ∃ t, retriever_qa_with_metadata env file query = .ok t := by
  cases file with
  | none => exact ⟨_, rfl⟩
  | some f =>
    show ∃ t,
      (if pyStr query = [] ∨ pyStrip (pyStr query) = [] then
        Except.ok (emptyQuestionMsg, [], [])
      else if 2000 < (pyStrip (pyStr query)).length then
        Except.ok (tooLongMsg, [], [])
      else handle_pipeline env f (pyStrip (pyStr query))) = .ok t
    by_cases hq : pyStr query = [] ∨ pyStrip (pyStr query) = []
    · exact ⟨_, by rw [if_pos hq]⟩
    · rw [if_neg hq]
      by_cases hl : 2000 < (pyStrip (pyStr query)).length
      · exact ⟨_, by rw [if_pos hl]⟩
      · rw [if_neg hl]
        unfold handle_pipeline
        cases hr : run_pipeline env f (pyStrip (pyStr query)) with
        | ok t => exact ⟨t, rfl⟩
        | error em =>
          obtain ⟨e, m⟩ := em
          exact ⟨_, rfl⟩

-- ---------------------------------------------------------------------------
-- Claim C7
-- ---------------------------------------------------------------------------

theorem filter_page_cons (ds : List Doc) (a : Option Int) (seen : List (Option Int)) :
    ds.filter (fun e => e.page ∉ a :: seen)
      = (ds.filter (fun e => e.page ∉ seen)).filter (fun e => e.page ≠ a) := by
  rw [List.filter_filter]
  apply List.filter_congr
  intro e _
  by_cases hxa : e.page = a <;> by_cases hxs : e.page ∈ seen <;>
    simp [hxa, hxs, List.mem_cons]

theorem extract_loop_eq_spec (docs : List Doc) : ∀ seen : List (Option Int),
    extract_loop seen docs
      = spec_source_attributions (docs.filter (fun e => e.page ∉ seen)) := by
  induction docs with
  | nil => intro seen; simp [extract_loop, spec_source_attributions]
  | cons d ds ih =>
    intro seen
    by_cases h : d.page ∈ seen
    · rw [extract_loop, if_pos h, ih seen]
      have hfc : (d :: ds).filter (fun e => e.page ∉ seen)
          = ds.filter (fun e => e.page ∉ seen) := by
        simp [List.filter_cons, h]
      rw [hfc]
    · rw [extract_loop, if_neg h, ih (d.page :: seen), filter_page_cons]
      have hfc : (d :: ds).filter (fun e => e.page ∉ seen)
          = d :: ds.filter (fun e => e.page ∉ seen) := by
        simp [List.filter_cons, h]
      rw [hfc]
      simp only [spec_source_attributions]

theorem extract_loop_page_notMem (docs : List Doc) :
    ∀ (seen : List (Option Int)) (s : Source),
      s ∈ extract_loop seen docs → s.page ∉ seen := by
  induction docs with
  | nil => intro seen s h; simp [extract_loop] at h
  | cons d ds ih =>
    intro seen s h
    by_cases hd : d.page ∈ seen
    · rw [extract_loop, if_pos hd] at h
      exact ih seen s h
    · rw [extract_loop, if_neg hd] at h
      rcases List.mem_cons.mp h with h | h
      · rw [h]; exact hd
      · have := ih _ s h
        exact fun hmem => this (List.mem_cons_of_mem _ hmem)

theorem extract_loop_pages_nodup (docs : List Doc) :
    ∀ seen : List (Option Int), ((extract_loop seen docs).map Source.page).Nodup := by
  induction docs with
  | nil => intro seen; simp [extract_loop]
  | cons d ds ih =>
    intro seen
    by_cases hd : d.page ∈ seen
    · rw [extract_loop, if_pos hd]; exact ih seen
    · rw [extract_loop, if_neg hd]
      rw [List.map_cons, List.nodup_cons]
      refine ⟨?_, ih _⟩
      intro hmem
      obtain ⟨s, hs, hpage⟩ := List.mem_map.mp hmem
      have := extract_loop_page_notMem ds _ s hs
      exact this (by rw [hpage]; exact List.mem_cons_self _ _)

theorem extract_loop_excerpt_le (docs : List Doc) :
    ∀ (seen : List (Option Int)) (s : Source),
      s ∈ extract_loop seen docs → s.excerpt.length ≤ 200 := by
  induction docs with
  | nil => intro seen s h; simp [extract_loop] at h
  | cons d ds ih =>
    intro seen s h
    by_cases hd : d.page ∈ seen
    · rw [extract_loop, if_pos hd] at h
      exact ih seen s h
    · rw [extract_loop, if_neg hd] at h
      rcases List.mem_cons.mp h with h | h
      · rw [h]
        exact le_trans (pyStrip_length_le _) (List.length_take_le _ _)
      · exact ih _ s h

/-- Claim C7: the source attributions computed by the orchestrator's
extraction loop coincide with the spec's description (deduplicate by page
in first-seen order, excerpt the 200-character truncation with surrounding
whitespace trimmed), the retained page numbers are pairwise distinct, and
every excerpt has at most 200 characters. -/
theorem c7_source_attribution (docs : List Doc) :
    extract_sources docs = spec_source_attributions docs ∧
    ((extract_sources docs).map Source.page).Nodup ∧
    ∀ s ∈ extract_sources docs, s.excerpt.length ≤ 200 := by
  refine ⟨?_, extract_loop_pages_nodup docs [],
    fun s hs => extract_loop_excerpt_le docs [] s hs⟩
  have h := extract_loop_eq_spec docs []
  rw [extract_sources, h]
  congr 1
  simp

/-- Witness for C7 at a concrete retrieved-document list with a duplicate
page and a long, padded chunk text. -/
theorem c7_witness :
    extract_sources
        [⟨" alpha ".data, some 2⟩, ⟨"beta".data, some 2⟩, ⟨"gamma".data, some 5⟩]
      = spec_source_attributions
        [⟨" alpha ".data, some 2⟩, ⟨"beta".data, some 2⟩, ⟨"gamma".data, some 5⟩] ∧
    (⟨some 2, "alpha".data⟩ : Source).excerpt.length ≤ 200 := by
  have h := c7_source_attribution
    [⟨" alpha ".data, some 2⟩, ⟨"beta".data, some 2⟩, ⟨"gamma".data, some 5⟩]
  exact ⟨h.1, h.2.2 ⟨some 2, "alpha".data⟩ (by decide)⟩

-- ---------------------------------------------------------------------------
-- Claim C2
-- ---------------------------------------------------------------------------

theorem lookupFp_head (fp : List Char) (id : Nat) (rest : List (List Char × Nat)) :
    lookupFp fp ((fp, id) :: rest) = some id := by
  have h : ((fp, id) :: rest).find? (fun p => p.1 = fp) = some (fp, id) :=
    List.find?_cons_of_pos _ (by simp)
  simp [lookupFp, h]

theorem concStep_start_hit (fp : List Char) (s : ConcState) (i id : Nat)
    (hpc : s.callers i = .start) (hl : lookupFp fp s.cache = some id) :
    concStep fp s i
      = { s with callers := fun j => if j = i then .done id else s.callers j } := by
  unfold concStep
  rw [hpc, hl]

theorem concStep_start_miss (fp : List Char) (s : ConcState) (i : Nat)
    (hpc : s.callers i = .start) (hl : lookupFp fp s.cache = none) :
    concStep fp s i
      = { s with callers := fun j => if j = i then .toBuild else s.callers j } := by
  unfold concStep
  rw [hpc, hl]

theorem concStep_toBuild (fp : List Char) (s : ConcState) (i : Nat)
    (hpc : s.callers i = .toBuild) :
    concStep fp s i
      = ⟨s.cache, s.nextId + 1, s.buildCount + 1,
         fun j => if j = i then .toInsert s.nextId else s.callers j⟩ := by
  unfold concStep
  rw [hpc]

theorem concStep_toInsert (fp : List Char) (s : ConcState) (i id : Nat)
    (hpc : s.callers i = .toInsert id) :
    concStep fp s i
      = ⟨(fp, id) :: s.cache, s.nextId, s.buildCount,
         fun j => if j = i then .done id else s.callers j⟩ := by
  unfold concStep
  rw [hpc]

theorem concStep_done (fp : List Char) (s : ConcState) (i id : Nat)
    (hpc : s.callers i = .done id) : concStep fp s i = s := by
  unfold concStep
  rw [hpc]

/-- A caller that finds the fingerprint missing runs probe, build, insert. -/
theorem concRun_three_fresh (fp : List Char) (s : ConcState) (i : Nat)
    (hpc : s.callers i = .start) (hl : lookupFp fp s.cache = none) :
    concRun fp [i, i, i] s
      = ⟨(fp, s.nextId) :: s.cache, s.nextId + 1, s.buildCount + 1,
         fun j => if j = i then .done s.nextId else s.callers j⟩ := by
  show concStep fp (concStep fp (concStep fp s i) i) i = _
  rw [concStep_start_miss fp s i hpc hl]
  unfold concStep
  simp
  funext j
  by_cases hj : j = i <;> simp [hj]

/-- A caller that finds the fingerprint cached completes in one step; its
two remaining scheduled steps are no-ops. -/
theorem concRun_three_hit (fp : List Char) (s : ConcState) (i id : Nat)
    (hpc : s.callers i = .start) (hl : lookupFp fp s.cache = some id) :
    concRun fp [i, i, i] s
      = { s with callers := fun j => if j = i then .done id else s.callers j } := by
  show concStep fp (concStep fp (concStep fp s i) i) i = _
  rw [concStep_start_hit fp s i id hpc hl]
  unfold concStep
  simp

/-- After the sequential schedule of `n ≥ 1` callers on one new
fingerprint: exactly one cache entry, one build, and every scheduled
caller finished with the first build's index. -/
theorem concSeq_state (fp : List Char) : ∀ n, 1 ≤ n →
    concRun fp (seqSchedule n) concInit
      = ⟨[(fp, 0)], 1, 1, fun j => if j < n then .done 0 else .start⟩ := by
  intro n
  induction n with
  | zero => intro h; omega
  | succ m ih =>
    intro _
    by_cases hm : m = 0
    · subst hm
      have hs : seqSchedule 1 = [0, 0, 0] := rfl
      rw [hs, concRun_three_fresh fp concInit 0 rfl rfl]
      congr 1
      funext j
      by_cases hj : j = 0 <;> simp [concInit, hj, Nat.lt_one_iff]
    · have hm1 : 1 ≤ m := Nat.one_le_iff_ne_zero.mpr hm
      have ihm := ih hm1
      have hsched : seqSchedule (m + 1) = seqSchedule m ++ [m, m, m] := rfl
      rw [hsched, concRun, List.foldl_append]
      rw [show List.foldl (concStep fp) concInit (seqSchedule m)
            = concRun fp (seqSchedule m) concInit from rfl, ihm]
      rw [show List.foldl (concStep fp)
            (⟨[(fp, 0)], 1, 1, fun j => if j < m then CallerPC.done 0 else CallerPC.start⟩ : ConcState)
            [m, m, m]
            = concRun fp [m, m, m]
              ⟨[(fp, 0)], 1, 1, fun j => if j < m then CallerPC.done 0 else CallerPC.start⟩ from rfl]
      rw [concRun_three_hit fp
            ⟨[(fp, 0)], 1, 1, fun j => if j < m then CallerPC.done 0 else CallerPC.start⟩
            m 0 (by simp) (lookupFp_head fp 0 [])]
      congr 1
      funext j
      by_cases hj : j = m
      · simp [hj]
      · by_cases hjm : j < m
        · have hj1 : j < m + 1 := by omega
          simp [hj, hjm, hj1]
        · have hj1 : ¬ j < m + 1 := by omega
          simp [hj, hjm, hj1]

/-- Claim C2 counterexample: two concurrent callers race on the same new
fingerprint under the interleaved schedule probe-probe-build-build-insert-
insert; both pass the membership probe before either inserts, so the
underlying index is built twice — refuting "exactly one underlying build"
for concurrent callers. -/
theorem c2_counterexample :
    (concRun (chunksHash [⟨"doc".data, none⟩]) [0, 1, 0, 1, 0, 1] concInit).buildCount
      = 2 ∧
    ¬ ((concRun (chunksHash [⟨"doc".data, none⟩]) [0, 1, 0, 1, 0, 1]
        concInit).buildCount = 1) :=
  ⟨rfl, by decide⟩

/-- Claim C2 (amended): construction is not serialised per fingerprint (the
code takes no lock, so interleaved callers can build repeatedly, as the
counterexample schedule shows); what holds is the sequential guarantee:
when N callers on the same new fingerprint run one after another (each to
completion before the next starts), exactly one build happens and every
caller finishes with the first build's index. -/
theorem c2_sequential_single_build (fp : List Char) (n : Nat) (h : 1 ≤ n) :
    (concRun fp (seqSchedule n) concInit).buildCount = 1 ∧
    ∀ i, i < n → (concRun fp (seqSchedule n) concInit).callers i = .done 0 := by
  rw [concSeq_state fp n h]
  exact ⟨rfl, fun i hi => by simp [hi]⟩

/-- Witness for C2 at two sequential callers on a concrete fingerprint. -/
theorem c2_witness :
    (concRun "k".data (seqSchedule 2) concInit).buildCount = 1 ∧
    (concRun "k".data (seqSchedule 2) concInit).callers 1 = .done 0 := by
  have h := c2_sequential_single_build "k".data 2 (by decide)
  exact ⟨h.1, h.2 1 (by decide)⟩

-- ---------------------------------------------------------------------------
-- Validation behaviour of the orchestrator (claims C3, C4, C10)
-- ---------------------------------------------------------------------------

/-- A question whose coerced string form is non-blank and, after stripping,
within the 2000-character bound passes validation: the call runs the
wrapped pipeline on the stripped question. -/
theorem qa_accepts (env : Env) (f : FileModel) (q : PyVal)
    (hq : pyStrip (pyStr q) ≠ []) (hl : (pyStrip (pyStr q)).length ≤ 2000) :
    retriever_qa_with_metadata env (some f) q
      = handle_pipeline env f (pyStrip (pyStr q)) := by
  have hq0 : pyStr q ≠ [] := ne_nil_of_pyStrip_ne_nil hq
  have h1 : ¬ (pyStr q = [] ∨ pyStrip (pyStr q) = []) := by
    push_neg
    exact ⟨hq0, hq⟩
  have h2 : ¬ (2000 < (pyStrip (pyStr q)).length) := by omega
  show (if pyStr q = [] ∨ pyStrip (pyStr q) = [] then
        Except.ok (emptyQuestionMsg, [], [])
      else if 2000 < (pyStrip (pyStr q)).length then
        Except.ok (tooLongMsg, [], [])
      else handle_pipeline env f (pyStrip (pyStr q))) = _
  rw [if_neg h1, if_neg h2]

-- ---------------------------------------------------------------------------
-- Claim C4
-- ---------------------------------------------------------------------------

/-- The raw question of length 2001: 2000 letters and a trailing space. -/
def longQ : List Char := List.replicate 2000 'a' ++ [' ']

/-- A run of non-whitespace letters with one trailing space strips to the
letters alone. -/
theorem pyStrip_append_space (n : Nat) (hn : 0 < n) :
    pyStrip (List.replicate n 'a' ++ [' ']) = List.replicate n 'a' := by
  obtain ⟨m, rfl⟩ : ∃ m, n = m + 1 := ⟨n - 1, by omega⟩
  unfold pyStrip trimLeft
  rw [List.replicate_succ, List.cons_append, List.dropWhile_cons,
    if_neg (by decide), ← List.cons_append, ← List.replicate_succ,
    List.reverse_append, List.reverse_replicate]
  show ((' ' :: List.replicate (m + 1) 'a').dropWhile Char.isWhitespace).reverse
    = List.replicate (m + 1) 'a'
  rw [List.dropWhile_cons, if_pos (by decide), List.replicate_succ,
    List.dropWhile_cons, if_neg (by decide), ← List.replicate_succ,
    List.reverse_replicate]

/-- In the benign environment with the one-page file, the pipeline answers
"ans" with no sources, for every query string. -/
theorem handle_pipeline_envOk (q : List Char) :
    handle_pipeline envOk fOk q = .ok ("ans".data, [], fullMetrics 1 1 0) := rfl

/-- Claim C4 counterexample: a question of raw length 2001 whose trailing
character is a space is accepted (the full pipeline runs and answers),
because the 2000-character bound is checked on the stripped question —
refuting "every question of length 2001 is rejected with a too-long
message". -/
theorem c4_counterexample :
    longQ.length = 2001 ∧
    retriever_qa_with_metadata envOk (some fOk) (.pstr longQ)
      = .ok ("ans".data, [], fullMetrics 1 1 0) ∧
    ("ans".data : List Char) ≠ tooLongMsg := by
  have hstrip : pyStrip longQ = List.replicate 2000 'a' :=
    pyStrip_append_space 2000 (by omega)
  refine ⟨?_, ?_, by decide⟩
  · unfold longQ
    rw [List.length_append, List.length_replicate]
    rfl
  · have hq : pyStrip (pyStr (.pstr longQ)) ≠ [] := by
      show pyStrip longQ ≠ []
      rw [hstrip]
      intro hnil
      have hlen := congrArg List.length hnil
      rw [List.length_replicate] at hlen
      simp at hlen
    have hl : (pyStrip (pyStr (.pstr longQ))).length ≤ 2000 := by
      show (pyStrip longQ).length ≤ 2000
      rw [hstrip, List.length_replicate]
    rw [qa_accepts envOk fOk (.pstr longQ) hq hl]
    show handle_pipeline envOk fOk (pyStrip longQ) = _
    rw [hstrip]
    exact handle_pipeline_envOk _

/-- Claim C4 (amended): validation resolves as returned results, never
exceptions, with the length bound applied to the trimmed question — absent
file returns the upload message; a question blank after trimming returns
the empty-question message; trimmed length above 2000 returns the too-long
message; otherwise (trimmed length 1 to 2000) the call proceeds into the
pipeline. -/
theorem c4_validation_boundaries (env : Env) (f : FileModel) (q : List Char) :
    retriever_qa_with_metadata env none (.pstr q) = .ok (uploadMsg, [], []) ∧
    (pyStrip q = [] →
      retriever_qa_with_metadata env (some f) (.pstr q)
        = .ok (emptyQuestionMsg, [], [])) ∧
    (2000 < (pyStrip q).length →
      retriever_qa_with_metadata env (some f) (.pstr q)
        = .ok (tooLongMsg, [], [])) ∧
    (pyStrip q ≠ [] → (pyStrip q).length ≤ 2000 →
      retriever_qa_with_metadata env (some f) (.pstr q)
        = handle_pipeline env f (pyStrip q)) := by
  refine ⟨rfl, ?_, ?_, fun h1 h2 => qa_accepts env f (.pstr q) h1 h2⟩
  · intro h
    show (if q = [] ∨ pyStrip q = [] then
          Except.ok (emptyQuestionMsg, [], [])
        else if 2000 < (pyStrip q).length then
          Except.ok (tooLongMsg, [], [])
        else handle_pipeline env f (pyStrip q)) = _
    rw [if_pos (Or.inr h)]
  · intro h
    have hq : pyStrip q ≠ [] := by
      intro h0
      rw [h0] at h
      simp at h
    have hq0 : q ≠ [] := ne_nil_of_pyStrip_ne_nil hq
    have h1 : ¬ (q = [] ∨ pyStrip q = []) := by
      push_neg
      exact ⟨hq0, hq⟩
    show (if q = [] ∨ pyStrip q = [] then
          Except.ok (emptyQuestionMsg, [], [])
        else if 2000 < (pyStrip q).length then
          Except.ok (tooLongMsg, [], [])
        else handle_pipeline env f (pyStrip q)) = _
    rw [if_neg h1, if_pos h]

/-- Witness for C4 at a whitespace-only question. -/
theorem c4_witness :
    retriever_qa_with_metadata envOk (some fOk) (.pstr "   ".data)
      = .ok (emptyQuestionMsg, [], []) :=
  (c4_validation_boundaries envOk fOk "   ".data).2.1 (by decide)

-- ---------------------------------------------------------------------------
-- Claim C3
-- ---------------------------------------------------------------------------

/-- Claim C3 counterexample: a valid, non-empty PDF whose parse yields zero
pages makes the orchestrator return the generic unexpected-error message
(`RuntimeError` falls through to the `except Exception` handler), not the
recoverable input-error mapping of validation errors — refuting "the
empty-content failure is mapped like input/validation errors". -/
theorem c3_counterexample :
    retriever_qa_with_metadata envOk (some fEmpty) (.pstr "What is this?".data)
      = .ok (unexpectedHead ++ noPagesMsg, [], []) ∧
    (unexpectedHead ++ noPagesMsg).take 13 ≠ inputErrorHead :=
  ⟨rfl, by decide⟩

/-- Claim C3 (amended): when parsing succeeds but yields zero page units,
`document_loader` raises `RuntimeError` with the no-pages message, and the
orchestrator maps it through the generic `except Exception` branch to the
"An unexpected error occurred" message — not the recoverable input-error
mapping used for `ValueError`/`FileNotFoundError`. -/
theorem c3_zero_pages_unexpected (env : Env) (f : FileModel) (q : List Char)
    (hex : f.pathExists = true) (hsuf : f.suffix.map Char.toLower = pdfSuffix)
    (hsz : ¬ f.size = 0) (hparse : f.parseResult = .ok [])
    (hq : pyStrip q ≠ []) (hl : (pyStrip q).length ≤ 2000) :
    retriever_qa_with_metadata env (some f) (.pstr q)
      = .ok (unexpectedHead ++ noPagesMsg, [], []) := by
  rw [qa_accepts env f (.pstr q) hq hl]
  have hload : document_loader (some f) = .error (.runtimeError noPagesMsg) := by
    show (if f.pathExists = false then
          (Except.error (PyExc.fileNotFoundError fileNotFoundMsg) : Except PyExc (List Doc))
        else if ¬ (f.suffix.map Char.toLower = pdfSuffix) then
          Except.error (PyExc.valueError wrongSuffixMsg)
        else if f.size = 0 then Except.error (PyExc.valueError emptyPdfMsg)
        else match f.parseResult with
          | Except.error e =>
            Except.error (PyExc.runtimeError (parseFailHead ++ excMessage e))
          | Except.ok pages =>
            if pages = [] then Except.error (PyExc.runtimeError noPagesMsg)
            else Except.ok pages)
      = Except.error (PyExc.runtimeError noPagesMsg)
    rw [if_neg (by simp [hex]), if_neg (by simp [hsuf]), if_neg hsz, hparse]
    rfl
  unfold handle_pipeline run_pipeline
  rw [hload]
  rfl

/-- Witness for C3 at a concrete zero-page parse. -/
theorem c3_witness :
    retriever_qa_with_metadata envOk (some fEmpty) (.pstr "Hi".data)
      = .ok (unexpectedHead ++ noPagesMsg, [], []) :=
  c3_zero_pages_unexpected envOk fEmpty "Hi".data rfl (by decide) (by decide)
    rfl (by decide) (by decide)

-- ---------------------------------------------------------------------------
-- Claim C10
-- ---------------------------------------------------------------------------

/-- A non-string question (a one-element list of strings) whose `str()`
representation strips to 2005 characters. -/
def longListQ : PyVal := .plistStr [List.replicate 2001 'a']

/-- The coerced representation of `longListQ`, spelled out: an opening
bracket, a quote, 2001 letters, a quote, a closing bracket. -/
theorem intercalate_singleton (sep x : List Char) : List.intercalate sep [x] = x := by
  simp [List.intercalate]

theorem pyStr_longListQ :
    pyStr longListQ
      = ('[' :: squote :: (List.replicate 2001 'a' ++ [squote])) ++ [']'] := by
  rw [show pyStr longListQ
      = '[' :: ((List.intercalate ", ".data
          (List.map pyReprStr [List.replicate 2001 'a'])) ++ [']']) from rfl]
  rw [show List.map pyReprStr [List.replicate 2001 'a']
      = [pyReprStr (List.replicate 2001 'a')] from rfl]
  rw [intercalate_singleton]
  rfl

/-- If a list's first and last characters exist and are not whitespace, the
list strips to itself. -/
theorem pyStrip_eq_self {s : List Char}
    (hhead : ∀ c, s.head? = some c → c.isWhitespace = false)
    (hlast : ∀ c, s.getLast? = some c → c.isWhitespace = false) :
    pyStrip s = s := by
  have hdw : ∀ (t : List Char), (∀ c, t.head? = some c → c.isWhitespace = false) →
      t.dropWhile Char.isWhitespace = t := by
    intro t ht
    cases t with
    | nil => rfl
    | cons a l =>
      rw [List.dropWhile_cons, if_neg]
      simp [ht a rfl]
  unfold pyStrip trimLeft
  rw [hdw s hhead, hdw s.reverse
    (fun c hc => hlast c (by rwa [List.head?_reverse] at hc)),
    List.reverse_reverse]

theorem pyStr_longListQ_strip : pyStrip (pyStr longListQ) = pyStr longListQ := by
  rw [pyStr_longListQ]
  apply pyStrip_eq_self
  · intro c hc
    rw [show (('[' :: squote :: (List.replicate 2001 'a' ++ [squote])) ++ [']']).head?
        = some '[' from rfl, Option.some_inj] at hc
    rw [← hc]
    decide
  · intro c hc
    rw [List.getLast?_concat, Option.some_inj] at hc
    rw [← hc]
    decide

theorem pyStr_longListQ_length : (pyStr longListQ).length = 2005 := by
  rw [pyStr_longListQ]
  rw [List.length_append, List.length_cons, List.length_cons, List.length_append,
    List.length_replicate]
  rfl

/-- Claim C10 counterexample: this non-string question has a non-blank
string representation, yet the call does not proceed into the pipeline — it
is rejected by the length check because its coerced representation strips
to more than 2000 characters (with the same environment, proceeding would
have produced the pipeline's answer instead) — refuting the unconditional
"proceeds into the pipeline". -/
theorem c10_counterexample :
    pyStrip (pyStr longListQ) ≠ [] ∧
    retriever_qa_with_metadata envOk (some fOk) longListQ
      = .ok (tooLongMsg, [], []) ∧
    handle_pipeline envOk fOk (pyStrip (pyStr longListQ))
      = .ok ("ans".data, [], fullMetrics 1 1 0) ∧
    tooLongMsg ≠ ("ans".data : List Char) := by
  have hne : pyStrip (pyStr longListQ) ≠ [] := by
    rw [pyStr_longListQ_strip, pyStr_longListQ]
    intro h
    exact List.cons_ne_nil _ _ h
  have hlen : 2000 < (pyStrip (pyStr longListQ)).length := by
    rw [pyStr_longListQ_strip, pyStr_longListQ_length]
    omega
  refine ⟨hne, ?_, handle_pipeline_envOk _, by decide⟩
  show (if pyStr longListQ = [] ∨ pyStrip (pyStr longListQ) = [] then
        Except.ok (emptyQuestionMsg, [], [])
      else if 2000 < (pyStrip (pyStr longListQ)).length then
        Except.ok (tooLongMsg, [], [])
      else handle_pipeline envOk fOk (pyStrip (pyStr longListQ))) = _
  rw [if_neg (by push_neg; exact ⟨ne_nil_of_pyStrip_ne_nil hne, hne⟩), if_pos hlen]

/-- Claim C10 (amended): a question of any non-string shape is coerced with
`str()` before validation; whenever the coerced representation is non-empty
after trimming and its trimmed length is at most 2000, and a document
reference is present, the call is not rejected by validation and proceeds
into the pipeline on the trimmed representation. -/
theorem c10_coerced_query_proceeds (env : Env) (f : FileModel) (q : PyVal)
    (hq : pyStrip (pyStr q) ≠ []) (hl : (pyStrip (pyStr q)).length ≤ 2000) :
    retriever_qa_with_metadata env (some f) q
      = handle_pipeline env f (pyStrip (pyStr q)) :=
  qa_accepts env f q hq hl

/-- Witness for C10 at `None`: `str(None)` is "None", non-empty, so the
pipeline runs and answers. -/
theorem c10_witness :
    retriever_qa_with_metadata envOk (some fOk) .pnone
      = .ok ("ans".data, [], fullMetrics 1 1 0) := by
  rw [c10_coerced_query_proceeds envOk fOk .pnone (by decide) (by decide)]
  rfl
